import Mathlib

/-!
Verification development for the Outline client tunnel session manager and its
connectivity diagnostics.

The definitions below are shallow embeddings of:
- the Swift session manager `OutlineVpn` (start / stop / isActive / on-demand
  policy handling and the last-disconnect-error IPC fetch);
- the Go connectivity client (`TestLatency`, `TestDownloadSpeed`,
  `NewClientWithBaseDialers`, `CheckTCPAndUDPConnectivity`);
- the TypeScript `VPNManagementAPI.performBandwidthTest` median aggregation.

Asynchronous platform interactions (preference loads, tunnel status
notifications, IPC round trips) are made explicit as value parameters and
effect traces; machine integers are modelled as `Nat`/`Int` (all measured
quantities in the source are nonnegative), and JavaScript numbers as `Rat`.
-/

/-- The `NEVPNStatus` cases of the Apple NetworkExtension framework, observed
by `OutlineVpn`. -/
inductive NEVPNStatus
  | invalid
  | disconnected
  | connecting
  | connected
  | reasserting
  | disconnecting
deriving DecidableEq

/-- Swift `isActiveSession(_ session: NEVPNConnection?)`:
`vpnStatus == .connected || vpnStatus == .connecting || vpnStatus == .reasserting`,
where a `nil` session (hence `nil` status) compares unequal to every case. -/
def isActiveSession : Option NEVPNStatus → Bool
  | some NEVPNStatus.connected => true
  | some NEVPNStatus.connecting => true
  | some NEVPNStatus.reasserting => true
  | _ => false

/-- The state of a `NETunnelProviderManager` relevant to the session manager:
the `"id"` entry of its provider configuration (absent when the protocol
configuration is missing or malformed) and its connection status. -/
structure TunnelManager where
  providerConfigId : Option String
  status : NEVPNStatus
deriving DecidableEq

/-- The VPN preferences environment: `getTunnelManager()` yields the first
saved manager, or `nil` when none is saved or loading fails. -/
structure VpnEnv where
  manager : Option TunnelManager
deriving DecidableEq

/-- Swift `getTunnelId(forManager:)`: reads `providerConfiguration["id"]`. -/
def getTunnelId (manager : Option TunnelManager) : Option String :=
  manager.bind (fun m => m.providerConfigId)

/-- Swift `OutlineVpn.isActive(_ tunnelId: String?)`: `false` when `tunnelId`
is `nil` or no tunnel manager is configured; otherwise
`getTunnelId(forManager: manager) == tunnelId && isActiveSession(manager.connection)`. -/
def isActive (env : VpnEnv) (tunnelId : Option String) : Bool :=
  match tunnelId, env.manager with
  | some _, some m =>
      decide (getTunnelId (some m) = tunnelId) && isActiveSession (some m.status)
  | _, _ => false

/-- Observable side effects of the session manager, in program order. -/
inductive Effect
  | loadPreferences
  | setOnDemand (enabled : Bool)
  | stopTunnelRequest
  | awaitDisconnected
  | setupVpn
  | registerObserver
  | startTunnelRequest
  | awaitStartTerminal
deriving DecidableEq

/-- Swift `stopSession(_ manager:)`: load preferences, disable on-demand,
request teardown, then await the `.disconnected` status. When the preference
load throws, the `catch` only logs and the function returns with no teardown
request and no wait. -/
def stopSessionEffects (loadOk : Bool) : List Effect :=
  if loadOk then
    [Effect.loadPreferences, Effect.setOnDemand false, Effect.stopTunnelRequest,
     Effect.awaitDisconnected]
  else
    [Effect.loadPreferences]

/-- Swift `OutlineVpn.stop(_ tunnelId: String)`: guarded on a configured
manager whose config id equals `tunnelId` and whose session is active;
otherwise it returns with no effects. -/
def stopEffects (env : VpnEnv) (tunnelId : String) (loadOk : Bool) : List Effect :=
  match env.manager with
  | none => []
  | some m =>
      if getTunnelId (some m) = some tunnelId ∧ isActiveSession (some m.status) = true then
        stopSessionEffects loadOk
      else
        []

/-- Swift `OutlineVpn.start`: when a manager exists and its session is active,
`stopSession` runs first; then `setupVpn` (which may throw
`vpnPermissionNotGranted`, aborting), then the status observer is registered
and `startTunnel` is issued, and the start awaits a terminal status. -/
def startEffects (env : VpnEnv) (loadOk setupOk : Bool) : List Effect :=
  (match env.manager with
   | some m => if isActiveSession (some m.status) = true then stopSessionEffects loadOk else []
   | none => []) ++
  [Effect.setupVpn] ++
  (if setupOk then
    [Effect.registerObserver, Effect.startTunnelRequest, Effect.awaitStartTerminal]
   else [])

/-- Session status evolution along the effect trace: the wait inside
`stopSession` resumes exactly when the connection status is `.disconnected`
(the continuation guard in the source), and no other effect of the session
manager itself changes the observed status. -/
def stepStatus (s : Option NEVPNStatus) (e : Effect) : Option NEVPNStatus :=
  match e with
  | Effect.awaitDisconnected => some NEVPNStatus.disconnected
  | _ => s

/-- The status of the configured session at the moment `start` is called. -/
def initialStatus (env : VpnEnv) : Option NEVPNStatus :=
  match env.manager with
  | some m => some m.status
  | none => none

/-- Checks along a trace that every `startTunnelRequest` effect happens while
the session is not in an active state. -/
def noStartWhileLive (s : Option NEVPNStatus) : List Effect → Bool
  | [] => true
  | e :: rest =>
      (if e = Effect.startTunnelRequest then !(isActiveSession s) else true) &&
      noStartWhileLive (stepStatus s e) rest

/-- Events that mutate the persisted on-demand policy or the observed status:
a platform `NEVPNStatusDidChange` notification handled by `vpnStatusChanged`,
the policy disable at the head of `stopSession`, the `onDemandRules = nil`
write inside `setupVpn`, and the `onDemandRules = [connectRule]` write at the
tail of a `start` that reached `.connected`. -/
inductive VpnEvent
  | statusChanged (s : NEVPNStatus)
  | beginStopSession
  | setupVpnSaved
  | startConnectedRuleSave
deriving DecidableEq

/-- The persisted policy state: the session status last observed, the
`isOnDemandEnabled` flag written by `setConnectVpnOnDemand`, and whether
`onDemandRules` holds the connect-on-any-network rule. -/
structure PolicyState where
  status : Option NEVPNStatus
  isOnDemandEnabled : Bool
  onDemandRulesConnect : Bool
deriving DecidableEq

/-- One step of the policy system, read off the source:
`vpnStatusChanged` calls `setConnectVpnOnDemand(manager, true)` whenever
`isActiveSession(session)` holds for the notified status; `stopSession` calls
`setConnectVpnOnDemand(manager, false)`; `setupVpn` sets `onDemandRules = nil`;
the post-`.connected` tail of `start` sets `onDemandRules = [connectRule]`. -/
def policyStep (st : PolicyState) (e : VpnEvent) : PolicyState :=
  match e with
  | VpnEvent.statusChanged s =>
      if isActiveSession (some s) = true then
        { st with status := some s, isOnDemandEnabled := true }
      else
        { st with status := some s }
  | VpnEvent.beginStopSession => { st with isOnDemandEnabled := false }
  | VpnEvent.setupVpnSaved => { st with onDemandRulesConnect := false }
  | VpnEvent.startConnectedRuleSave => { st with onDemandRulesConnect := true }

/-- Errors thrown by `OutlineVpn` (the `OutlineError` cases reached in the
embedded code paths). -/
inductive OutlineError
  | vpnPermissionNotGranted
  | setupSystemVPNFailed
  | detailedJsonError (code : String) (json : String)
  | internalError (message : String)
deriving DecidableEq

/-- Swift `LastErrorIPCData`, the property-list payload of the
last-disconnect-error IPC response. -/
structure LastErrorIPCData where
  errorCode : String
  errorJson : String
deriving DecidableEq

/-- Outcome of one `sendProviderMessage` round trip: the send itself may
throw; otherwise the extension replies with `nil` data or with data, and
decoding that data may fail (`none`) or yield a `LastErrorIPCData`. -/
inductive IPCSendResult
  | sendFailed
  | response (decodedData : Option (Option LastErrorIPCData))
deriving DecidableEq

/-- The IPC opcode string used by `fetchExtensionLastDisconnectError`. -/
def fetchLastDetailedJsonErrorOpcode : String := "fetchLastDisconnectDetailedJsonError"

/-- Swift `fetchExtensionLastDisconnectError(_ session:)`: sends the
`fetchLastDisconnectDetailedJsonError` opcode; a `nil` response means no
error (`nil` result); a decodable response yields
`OutlineError.detailedJsonError(code:json:)`; a send or decode failure is
caught and wrapped as `internalError`. -/
def fetchExtensionLastDisconnectError (respond : String → IPCSendResult) : Option OutlineError :=
  match respond fetchLastDetailedJsonErrorOpcode with
  | IPCSendResult.sendFailed =>
      some (OutlineError.internalError "IPC fetchLastDisconnectError failed")
  | IPCSendResult.response none => none
  | IPCSendResult.response (some none) =>
      some (OutlineError.internalError "IPC fetchLastDisconnectError failed")
  | IPCSendResult.response (some (some d)) =>
      some (OutlineError.detailedJsonError d.errorCode d.errorJson)

/-- The `switch manager.connection.status` at the end of `OutlineVpn.start`,
after the one-shot terminal wait resolves: `.connected` succeeds;
`.disconnected` and `.invalid` fetch the last disconnect error and throw it,
or throw `internalError` when the fetch returns `nil`; any other status
throws `internalError`. -/
def startTerminalOutcome (finalStatus : NEVPNStatus) (respond : String → IPCSendResult) :
    Except OutlineError Unit :=
  match finalStatus with
  | NEVPNStatus.connected => Except.ok ()
  | NEVPNStatus.disconnected =>
      match fetchExtensionLastDisconnectError respond with
      | none => Except.error (OutlineError.internalError "unexpected nil disconnect error")
      | some e => Except.error e
  | NEVPNStatus.invalid =>
      match fetchExtensionLastDisconnectError respond with
      | none => Except.error (OutlineError.internalError "unexpected nil disconnect error")
      | some e => Except.error e
  | _ => Except.error (OutlineError.internalError "unexpected connection status")


/-- A Go `http.Response` as far as the diagnostics use it. Go HTTP clients
return a non-nil error only for transport-level failures (timeout, connection
error, redirect policy); a response with any HTTP status code, success or
not, is returned with a nil error. -/
structure HttpResponse where
  statusCode : Nat
deriving DecidableEq

/-- Go `Client.TestLatency`: `-1` when `httpClient.Head(testURL)` returns an
error; otherwise the elapsed milliseconds since the call started, whatever
the status code of the response. -/
def testLatency (headResult : Option HttpResponse) (elapsedMs : Nat) : Int :=
  match headResult with
  | none => -1
  | some _ => (elapsedMs : Int)

/-- Go `Client.TestDownloadSpeed`, abstracted over the run: whether the
initial `GET` succeeded, the total bytes accumulated by the read loop, and
`actualDuration.Milliseconds()`. The returned speed is computed exactly as in
the source: `totalBytes / int64(actualDuration.Milliseconds()) * 1000 / 1024`
(Go integer division, left to right; both operands are nonnegative). -/
def testDownloadSpeed (requestOk : Bool) (totalBytes elapsedMs : Nat) : Int :=
  if requestOk = false then -1
  else if elapsedMs = 0 then -1
  else ((totalBytes / elapsedMs * 1000 / 1024 : Nat) : Int)

/-- JavaScript `Math.round` on the nonnegative values produced by the
bandwidth probes: round half away from zero, i.e. `Int.floor (q + 1/2)`. -/
def jsRound (q : Rat) : Int := Int.floor (q + 1 / 2)

/-- The numeric ascending sort `bandwidthResults.sort((a, b) => a - b)`
performed by `performBandwidthTest`. -/
def sortSamples (l : List Rat) : List Rat := l.insertionSort (fun a b => a ≤ b)

/-- TypeScript `VPNManagementAPI.performBandwidthTest`, abstracted over the
list of per-size bandwidth samples that survived the probe loop: an empty
list throws (`none`); otherwise the samples are sorted ascending,
`medianIndex = Math.floor(length / 2)`, the median is the middle element for
an odd count and the average of the two central elements for an even count,
and the function returns `Math.round(medianBandwidth)`. -/
def performBandwidthTestAggregate (bandwidthResults : List Rat) : Option Int :=
  match bandwidthResults with
  | [] => none
  | _ =>
      let sorted := sortSamples bandwidthResults
      let medianIndex := sorted.length / 2
      let medianBandwidth :=
        if sorted.length % 2 = 0 then
          (sorted.getD (medianIndex - 1) 0 + sorted.getD medianIndex 0) / 2
        else
          sorted.getD medianIndex 0
      some (jsRound medianBandwidth)

/-- The median of the sorted samples exactly as the specification words it:
the middle element of the sorted list for an odd sample count, and the
average of the two central sorted values for an even sample count. -/
def medianOfSorted (l : List Rat) : Rat :=
  let s := sortSamples l
  if s.length % 2 = 0 then (s.getD (s.length / 2 - 1) 0 + s.getD (s.length / 2) 0) / 2
  else s.getD (s.length / 2) 0

/-- A diagnostics computation with per-task wall-clock cost in milliseconds:
sequential composition adds costs, parallel composition takes the maximum. -/
inductive TestComp
  | task (costMs : Nat)
  | seqComp (a b : TestComp)
  | parComp (a b : TestComp)
deriving DecidableEq

/-- Wall-clock cost of a diagnostics computation. -/
def wallClockMs : TestComp → Nat
  | TestComp.task c => c
  | TestComp.seqComp a b => wallClockMs a + wallClockMs b
  | TestComp.parComp a b => max (wallClockMs a) (wallClockMs b)

/-- Modelled from the spec: the body of `connectivity.CheckTCPAndUDPConnectivity`
(package `client/go/outline/connectivity`) is not under `src/`; per the spec
and the doc comment on the wrapper in `src/unnamed/part_001`, it
"parallelizes the execution of TCP and UDP checks". The wrapper
`CheckTCPAndUDPConnectivity(client)` therefore composes the two checks in
parallel, given their individual wall-clock costs. -/
def checkTCPAndUDPConnectivityComp (tcpMs udpMs : Nat) : TestComp :=
  TestComp.parComp (TestComp.task tcpMs) (TestComp.task udpMs)

/-- The `ConnType` of a parsed dialer or listener in the Go `config` package:
`ConnTypeDirect` connects directly, otherwise the connection is tunneled. -/
inductive ConnType
  | direct
  | tunneled
deriving DecidableEq

/-- The `TransportPair` produced by `config.NewDefaultTransportProvider(...).Parse`:
the stream dialer and packet listener with their connection types. -/
structure TransportPair where
  streamDialerConnType : ConnType
  packetListenerConnType : ConnType
deriving DecidableEq

/-- Error codes of `platerrors` reached by `NewClientWithBaseDialers`. -/
inductive PlatErrorCode
  | invalidConfig
deriving DecidableEq

/-- A `platerrors.PlatformError` as constructed by `NewClientWithBaseDialers`. -/
structure PlatformError where
  code : PlatErrorCode
  message : String
deriving DecidableEq

/-- Outcome of parsing the client configuration text: YAML unmarshal failure,
an `errors.ErrUnsupported` transport parse failure, any other transport parse
failure, or a parsed transport pair. -/
inductive TransportParse
  | yamlError
  | unsupportedErr
  | otherParseError
  | parsed (pair : TransportPair)
deriving DecidableEq

/-- The `Client` value constructed by `NewClientWithBaseDialers`, carrying the
stream dialer and packet listener of the parsed transport pair. -/
structure GoClient where
  streamDialerConnType : ConnType
  packetListenerConnType : ConnType
deriving DecidableEq

/-- Go `NewClientWithBaseDialers`: fails with an `InvalidConfig` error on a
YAML error, on a transport parse failure, and — after a successful parse — on
a stream dialer or packet listener whose `ConnType` is `ConnTypeDirect`; it
returns a `Client` only for a transport pair that tunnels both. -/
def newClientWithBaseDialers (p : TransportParse) : Except PlatformError GoClient :=
  match p with
  | TransportParse.yamlError =>
      Except.error ⟨PlatErrorCode.invalidConfig, "config is not valid YAML"⟩
  | TransportParse.unsupportedErr =>
      Except.error ⟨PlatErrorCode.invalidConfig, "unsupported config"⟩
  | TransportParse.otherParseError =>
      Except.error ⟨PlatErrorCode.invalidConfig, "failed to create transport"⟩
  | TransportParse.parsed pair =>
      if pair.streamDialerConnType = ConnType.direct then
        Except.error ⟨PlatErrorCode.invalidConfig, "transport must tunnel TCP traffic"⟩
      else if pair.packetListenerConnType = ConnType.direct then
        Except.error ⟨PlatErrorCode.invalidConfig, "transport must tunnel UDP traffic"⟩
      else
        Except.ok ⟨pair.streamDialerConnType, pair.packetListenerConnType⟩

/-- C2: for every tunnelId, `isActive tunnelId` returns true iff tunnelId
equals the id stored in the configured tunnel manager provider configuration
and the session state is one of Connecting, Connected, Reasserting; in
particular it is false when tunnelId is nil (no `t` exists) or no tunnel
manager is configured (no `m` exists). -/
theorem isActive_iff_configured_and_active (env : VpnEnv) (tid : Option String) :
    isActive env tid = true ↔
      ∃ t m, tid = some t ∧ env.manager = some m ∧ m.providerConfigId = some t ∧
        (m.status = NEVPNStatus.connecting ∨ m.status = NEVPNStatus.connected ∨
         m.status = NEVPNStatus.reasserting) := by
  obtain ⟨mgr⟩ := env
  cases tid with
  | none => simp [isActive]
  | some t =>
    cases mgr with
    | none => simp [isActive]
    | some m =>
      obtain ⟨pid, st⟩ := m
      cases st <;>
        simp [isActive, isActiveSession, getTunnelId]

/-- C4: for every tunnelId that does not match the configured tunnel id, or
whose session state is not active (Connecting/Connected/Reasserting),
`stop tunnelId` returns immediately with an empty effect trace: no on-demand
policy change, no teardown request, no preference load, and no status wait. -/
theorem stop_noop_when_not_active (env : VpnEnv) (tid : String) (loadOk : Bool)
    (h : ∀ m, env.manager = some m →
      ¬(m.providerConfigId = some tid ∧ isActiveSession (some m.status) = true)) :
    stopEffects env tid loadOk = [] := by
  obtain ⟨mgr⟩ := env
  cases mgr with
  | none => rfl
  | some m =>
    have hm := h m rfl
    simp only [stopEffects, getTunnelId, Option.bind_eq_bind, Option.some_bind]
    rw [if_neg hm]

/-- C4 witness: stopping a tunnel id that is not the configured one produces
no effects. -/
theorem stop_noop_when_not_active_witness :
    stopEffects ⟨some ⟨some "tunnel-a", NEVPNStatus.connected⟩⟩ "tunnel-b" true = [] :=
  stop_noop_when_not_active ⟨some ⟨some "tunnel-a", NEVPNStatus.connected⟩⟩ "tunnel-b" true
    (by intro m hm; injection hm with hm; subst hm; simp)

/-- C7 counterexample: a HEAD round trip that returns an HTTP 500 response
comes back with a nil Go error, so `TestLatency` returns the elapsed time
(42 ms here) rather than the -1 the claim requires for a non-success
status. -/
theorem latency_nonsuccess_status_counterexample :
    testLatency (some ⟨500⟩) 42 = 42 ∧ testLatency (some ⟨500⟩) 42 ≠ -1 := by decide

/-- C7 amended: `TestLatency` returns the elapsed round-trip time in integer
milliseconds whenever the HEAD request yields any HTTP response (regardless
of status code), and -1 exactly on transport-level failures (timeout,
connection error), where the Go HTTP client returns a non-nil error. -/
theorem latency_value_amended (r : HttpResponse) (elapsedMs : Nat) :
    testLatency (some r) elapsedMs = (elapsedMs : Int) ∧
    testLatency none elapsedMs = -1 :=
  ⟨rfl, rfl⟩

/-- C6 counterexample: with 1500 bytes read over 1000 ms the source computes
`1500 / 1000 * 1000 / 1024 = 0`, while the formula claimed by the spec,
`totalBytesRead * 1000 / elapsedMs / 1024`, gives 1. -/
theorem downloadSpeed_formula_counterexample :
    testDownloadSpeed true 1500 1000 = 0 ∧
    ((1500 * 1000 / 1000 / 1024 : Nat) : Int) = 1 ∧
    testDownloadSpeed true 1500 1000 ≠ ((1500 * 1000 / 1000 / 1024 : Nat) : Int) := by
  decide

/-- C6 amended: for elapsedMs > 0 the returned speed is the integer
computation `totalBytesRead / elapsedMs * 1000 / 1024` evaluated left to
right (bytes per millisecond first); the measurement returns -1 when the
elapsed time rounds to zero milliseconds or the initial HTTP request
fails. -/
theorem downloadSpeed_formula_amended (totalBytes elapsedMs : Nat) (h : 0 < elapsedMs) :
    testDownloadSpeed true totalBytes elapsedMs =
      ((totalBytes / elapsedMs * 1000 / 1024 : Nat) : Int) ∧
    testDownloadSpeed true totalBytes 0 = -1 ∧
    testDownloadSpeed false totalBytes elapsedMs = -1 := by
  refine ⟨?_, rfl, rfl⟩
  simp [testDownloadSpeed, Nat.pos_iff_ne_zero.mp h]

/-- C6 witness: the amended formula evaluated on a concrete run. -/
theorem downloadSpeed_formula_amended_witness :
    testDownloadSpeed true 2048000 2000 = ((2048000 / 2000 * 1000 / 1024 : Nat) : Int) ∧
    testDownloadSpeed true 2048000 0 = -1 ∧
    testDownloadSpeed false 2048000 2000 = -1 :=
  downloadSpeed_formula_amended 2048000 2000 (by decide)

/-- C9: the TCP and UDP reachability checks are composed in parallel, so the
wall-clock cost of the combined check is exactly the slower of the two
(hence bounded by it, not by their sum); with two 500 ms stub checks the
combined check costs 500 ms, not 1000 ms. -/
theorem tcp_udp_checks_parallel_wallclock (tcpMs udpMs : Nat) :
    wallClockMs (checkTCPAndUDPConnectivityComp tcpMs udpMs) = max tcpMs udpMs ∧
    wallClockMs (checkTCPAndUDPConnectivityComp tcpMs udpMs) ≤
      wallClockMs (TestComp.seqComp (TestComp.task tcpMs) (TestComp.task udpMs)) ∧
    wallClockMs (checkTCPAndUDPConnectivityComp 500 500) = 500 := by
  refine ⟨rfl, ?_, rfl⟩
  exact max_le (Nat.le_add_right _ _) (Nat.le_add_left _ _)

/-- C1 counterexample: with a connected session configured and the preference
load inside `stopSession` failing, `start` proceeds without any teardown
request or stop wait and issues `startTunnel` while the session is still
live: the trace violates the no-start-while-live check and contains no
`awaitDisconnected`. -/
theorem start_issued_while_live_counterexample :
    noStartWhileLive (initialStatus ⟨some ⟨none, NEVPNStatus.connected⟩⟩)
      (startEffects ⟨some ⟨none, NEVPNStatus.connected⟩⟩ false true) = false ∧
    Effect.awaitDisconnected ∉ startEffects ⟨some ⟨none, NEVPNStatus.connected⟩⟩ false true ∧
    Effect.stopTunnelRequest ∉ startEffects ⟨some ⟨none, NEVPNStatus.connected⟩⟩ false true ∧
    Effect.startTunnelRequest ∈ startEffects ⟨some ⟨none, NEVPNStatus.connected⟩⟩ false true := by
  decide

/-- C1 amended: provided the preference load inside `stopSession` succeeds,
every `startTunnel` request in the trace of `start` happens while the session
is not live, and whenever a session is active at the moment of the call and
the start request is actually issued (`setupVpn` succeeded), the stop wait
(`awaitDisconnected`) resolves strictly before the `startTunnel` request. -/
theorem start_stops_active_before_startTunnel (env : VpnEnv) (loadOk setupOk : Bool)
    (hload : loadOk = true) :
    noStartWhileLive (initialStatus env) (startEffects env loadOk setupOk) = true ∧
    (∀ m, env.manager = some m → isActiveSession (some m.status) = true → setupOk = true →
      ∃ i j, i < j ∧
        (startEffects env loadOk setupOk).get? i = some Effect.awaitDisconnected ∧
        (startEffects env loadOk setupOk).get? j = some Effect.startTunnelRequest) := by
  subst hload
  obtain ⟨mgr⟩ := env
  cases mgr with
  | none =>
    refine ⟨by cases setupOk <;> decide, ?_⟩
    intro m hm
    exact Option.noConfusion hm
  | some m =>
    cases hact : isActiveSession (some m.status) with
    | true =>
      refine ⟨?_, ?_⟩
      · cases setupOk <;>
        · simp only [startEffects, stopSessionEffects, initialStatus, hact,
            eq_self_iff_true, if_true]
          simp [noStartWhileLive, stepStatus, isActiveSession]
      · intro m' hm' _ hsetup
        subst hsetup
        refine ⟨3, 6, by decide, ?_, ?_⟩ <;>
        · simp only [startEffects, stopSessionEffects, hact, eq_self_iff_true, if_true]
          rfl
    | false =>
      refine ⟨?_, ?_⟩
      · cases setupOk <;>
          simp [startEffects, initialStatus, hact, noStartWhileLive, stepStatus]
      · intro m' hm' hact' _
        injection hm' with hm'
        subst hm'
        rw [hact'] at hact
        exact absurd hact (by decide)

/-- C1 witness: a connected session for tunnel-a is stopped, with the stop
wait resolving, before the start request of the new tunnel is issued. -/
theorem start_stops_active_before_startTunnel_witness :
    noStartWhileLive (initialStatus ⟨some ⟨some "tunnel-a", NEVPNStatus.connected⟩⟩)
      (startEffects ⟨some ⟨some "tunnel-a", NEVPNStatus.connected⟩⟩ true true) = true ∧
    (∃ i j, i < j ∧
      (startEffects ⟨some ⟨some "tunnel-a", NEVPNStatus.connected⟩⟩ true true).get? i =
        some Effect.awaitDisconnected ∧
      (startEffects ⟨some ⟨some "tunnel-a", NEVPNStatus.connected⟩⟩ true true).get? j =
        some Effect.startTunnelRequest) := by
  refine ⟨(start_stops_active_before_startTunnel _ true true rfl).1, ?_⟩
  exact (start_stops_active_before_startTunnel ⟨some ⟨some "tunnel-a", NEVPNStatus.connected⟩⟩
    true true rfl).2 ⟨some "tunnel-a", NEVPNStatus.connected⟩ rfl rfl rfl

/-- C3: when the awaited terminal state of a start is Disconnected or
Invalid, the failure is obtained from the fetchLastDisconnectDetailedJsonError
IPC call: a decodable response makes start throw the detailed error carrying
exactly the decoded errorCode and errorJson pair, and a nil IPC response
makes start throw an internal error instead. -/
theorem start_terminal_failure_error_surface (finalStatus : NEVPNStatus)
    (respond : String → IPCSendResult) (code json : String)
    (hterm : finalStatus = NEVPNStatus.disconnected ∨ finalStatus = NEVPNStatus.invalid) :
    (respond fetchLastDetailedJsonErrorOpcode =
        IPCSendResult.response (some (some ⟨code, json⟩)) →
      startTerminalOutcome finalStatus respond =
        Except.error (OutlineError.detailedJsonError code json)) ∧
    (respond fetchLastDetailedJsonErrorOpcode = IPCSendResult.response none →
      startTerminalOutcome finalStatus respond =
        Except.error (OutlineError.internalError "unexpected nil disconnect error")) := by
  rcases hterm with h | h <;> subst h <;>
    exact ⟨fun hr => by simp [startTerminalOutcome, fetchExtensionLastDisconnectError, hr],
           fun hr => by simp [startTerminalOutcome, fetchExtensionLastDisconnectError, hr]⟩

/-- C3 witness: against a stub extension that reports Invalid with
retrievable detailed error code ERR_X and json detail-json, start fails with
the detailed error carrying exactly that pair. -/
theorem start_terminal_failure_error_surface_witness :
    startTerminalOutcome NEVPNStatus.invalid
        (fun _ => IPCSendResult.response (some (some ⟨"ERR_X", "detail-json"⟩))) =
      Except.error (OutlineError.detailedJsonError "ERR_X" "detail-json") :=
  (start_terminal_failure_error_surface NEVPNStatus.invalid
    (fun _ => IPCSendResult.response (some (some ⟨"ERR_X", "detail-json"⟩)))
    "ERR_X" "detail-json" (Or.inr rfl)).1 rfl

/-- The policy-event trace of a start attempt that fails: `setupVpn` saves
the config, the platform posts Connecting, then the attempt collapses through
Disconnecting to Disconnected; Connected is never reached and the
post-success rule save never runs. -/
def failedStartTrace : List VpnEvent :=
  [VpnEvent.setupVpnSaved, VpnEvent.statusChanged NEVPNStatus.connecting,
   VpnEvent.statusChanged NEVPNStatus.disconnecting,
   VpnEvent.statusChanged NEVPNStatus.disconnected]

/-- C5 counterexample: starting from a disabled policy, the Connecting
notification of a start attempt that subsequently fails (terminal state
Disconnected, no Connected event, no post-success save) leaves the on-demand
flag enabled — so the policy is enabled by an event other than a
successfully completed start. -/
theorem onDemand_enabled_without_successful_start :
    (List.foldl policyStep ⟨some NEVPNStatus.disconnected, false, false⟩
        failedStartTrace).isOnDemandEnabled = true ∧
    (List.foldl policyStep ⟨some NEVPNStatus.disconnected, false, false⟩
        failedStartTrace).status = some NEVPNStatus.disconnected ∧
    VpnEvent.statusChanged NEVPNStatus.connected ∉ failedStartTrace ∧
    VpnEvent.startConnectedRuleSave ∉ failedStartTrace := by
  decide

/-- C5 amended: across every event interleaving, the on-demand flag goes from
disabled to enabled only through a status notification reporting an active
session state (Connecting, Connected, or Reasserting) — in particular the
disable at the head of an explicit stop is never undone by the teardown
notifications (Disconnecting, Disconnected) the stop itself produces, but the
flag is enabled by any active-state notification, including during a start
that has not completed or later fails. -/
theorem onDemand_enabled_only_by_active_status (tr : List VpnEvent) (st : PolicyState)
    (hOff : st.isOnDemandEnabled = false)
    (hOn : (List.foldl policyStep st tr).isOnDemandEnabled = true) :
    ∃ s, VpnEvent.statusChanged s ∈ tr ∧ isActiveSession (some s) = true := by
  induction tr generalizing st with
  | nil =>
    rw [List.foldl_nil, hOff] at hOn
    exact absurd hOn (by decide)
  | cons e rest ih =>
    rw [List.foldl_cons] at hOn
    cases hmid : (policyStep st e).isOnDemandEnabled with
    | true =>
      cases e with
      | statusChanged s =>
        cases hact : isActiveSession (some s) with
        | true => exact ⟨s, List.mem_cons_self _ _, hact⟩
        | false =>
          exfalso
          simp [policyStep, hact, hOff] at hmid
      | beginStopSession =>
        exfalso
        simp [policyStep] at hmid
      | setupVpnSaved =>
        exfalso
        simp [policyStep, hOff] at hmid
      | startConnectedRuleSave =>
        exfalso
        simp [policyStep, hOff] at hmid
    | false =>
      obtain ⟨s, hs, hsact⟩ := ih (policyStep st e) hmid hOn
      exact ⟨s, List.mem_cons_of_mem _ hs, hsact⟩

/-- C5 witness: a single Connecting notification flips the disabled policy
to enabled, and the theorem locates the active-state notification. -/
theorem onDemand_enabled_only_by_active_status_witness :
    ∃ s, VpnEvent.statusChanged s ∈ [VpnEvent.statusChanged NEVPNStatus.connecting] ∧
      isActiveSession (some s) = true :=
  onDemand_enabled_only_by_active_status [VpnEvent.statusChanged NEVPNStatus.connecting]
    ⟨some NEVPNStatus.disconnected, false, false⟩ (by decide) (by decide)

/-- C8 counterexample: for the samples 100 and 201 the source returns
`Math.round((100 + 201) / 2) = 151`, which is not the median of the sorted
samples (the average of the two central values is 301/2 = 150.5). -/
theorem bandwidth_median_rounding_counterexample :
    performBandwidthTestAggregate [100, 201] = some 151 ∧
    medianOfSorted [100, 201] = 301 / 2 ∧
    ((151 : Rat) ≠ 301 / 2) := by
  have hs : sortSamples [100, 201] = [100, 201] := by
    simp [sortSamples, List.insertionSort, List.orderedInsert]
    norm_num
  refine ⟨?_, ?_, by norm_num⟩
  · simp only [performBandwidthTestAggregate, hs]
    norm_num [jsRound, Int.floor_eq_iff]
  · simp only [medianOfSorted, hs]
    norm_num

/-- C8 amended: for every non-empty list of bandwidth samples the aggregated
bandwidth is the median of the sorted samples — middle element for an odd
count, average of the two central sorted values for an even count — rounded
to the nearest integer with halves rounding up (JS Math.round); in
particular the samples 100, 300, 200 aggregate to 200 and the samples
100, 300, 200, 400 aggregate to 250. -/
theorem bandwidth_aggregate_rounded_median (l : List Rat) (h : l ≠ []) :
    performBandwidthTestAggregate l = some (jsRound (medianOfSorted l)) ∧
    performBandwidthTestAggregate [100, 300, 200] = some 200 ∧
    performBandwidthTestAggregate [100, 300, 200, 400] = some 250 := by
  refine ⟨?_, ?_, ?_⟩
  · cases l with
    | nil => exact absurd rfl h
    | cons a as => rfl
  · have hs : sortSamples [100, 300, 200] = [100, 200, 300] := by
      simp [sortSamples, List.insertionSort, List.orderedInsert]
      norm_num
    simp only [performBandwidthTestAggregate, hs]
    norm_num [jsRound, Int.floor_eq_iff]
  · have hs : sortSamples [100, 300, 200, 400] = [100, 200, 300, 400] := by
      simp [sortSamples, List.insertionSort, List.orderedInsert]
      norm_num
    simp only [performBandwidthTestAggregate, hs]
    norm_num [jsRound, Int.floor_eq_iff]

/-- C8 witness: the rounded-median aggregation evaluated on the sample lists
named by the claim. -/
theorem bandwidth_aggregate_rounded_median_witness :
    performBandwidthTestAggregate [100, 300, 200] =
      some (jsRound (medianOfSorted [100, 300, 200])) ∧
    performBandwidthTestAggregate [100, 300, 200] = some 200 ∧
    performBandwidthTestAggregate [100, 300, 200, 400] = some 250 :=
  bandwidth_aggregate_rounded_median [100, 300, 200] (by simp)

/-- C10: if the configuration parses to a transport pair whose stream dialer
or packet listener would connect directly, client creation fails with an
InvalidConfig error and no Client is returned; and every Client the function
returns was constructed from a transport that tunnels both TCP and UDP. -/
theorem newClient_rejects_direct_transport (pair : TransportPair) (p : TransportParse)
    (c : GoClient)
    (hdirect : pair.streamDialerConnType = ConnType.direct ∨
      pair.packetListenerConnType = ConnType.direct) :
    (∃ e, newClientWithBaseDialers (TransportParse.parsed pair) = Except.error e ∧
      e.code = PlatErrorCode.invalidConfig) ∧
    (newClientWithBaseDialers p = Except.ok c →
      c.streamDialerConnType ≠ ConnType.direct ∧ c.packetListenerConnType ≠ ConnType.direct) := by
  constructor
  · rcases hdirect with h | h
    · refine ⟨⟨PlatErrorCode.invalidConfig, "transport must tunnel TCP traffic"⟩, ?_, rfl⟩
      simp [newClientWithBaseDialers, h]
    · by_cases hs : pair.streamDialerConnType = ConnType.direct
      · refine ⟨⟨PlatErrorCode.invalidConfig, "transport must tunnel TCP traffic"⟩, ?_, rfl⟩
        simp [newClientWithBaseDialers, hs]
      · refine ⟨⟨PlatErrorCode.invalidConfig, "transport must tunnel UDP traffic"⟩, ?_, rfl⟩
        simp [newClientWithBaseDialers, hs, h]
  · intro hok
    cases p with
    | yamlError => simp [newClientWithBaseDialers] at hok
    | unsupportedErr => simp [newClientWithBaseDialers] at hok
    | otherParseError => simp [newClientWithBaseDialers] at hok
    | parsed q =>
      obtain ⟨s, u⟩ := q
      cases s <;> cases u <;> simp [newClientWithBaseDialers] at hok
      subst hok
      exact ⟨by decide, by decide⟩

/-- C10 witness: a transport pair that would connect TCP directly is rejected
with InvalidConfig, and the accepted fully-tunneled pair yields a client that
tunnels both protocols. -/
theorem newClient_rejects_direct_transport_witness :
    (∃ e, newClientWithBaseDialers
        (TransportParse.parsed ⟨ConnType.direct, ConnType.tunneled⟩) = Except.error e ∧
      e.code = PlatErrorCode.invalidConfig) ∧
    (newClientWithBaseDialers (TransportParse.parsed ⟨ConnType.tunneled, ConnType.tunneled⟩) =
        Except.ok ⟨ConnType.tunneled, ConnType.tunneled⟩ →
      (⟨ConnType.tunneled, ConnType.tunneled⟩ : GoClient).streamDialerConnType ≠
        ConnType.direct ∧
      (⟨ConnType.tunneled, ConnType.tunneled⟩ : GoClient).packetListenerConnType ≠
        ConnType.direct) :=
  newClient_rejects_direct_transport ⟨ConnType.direct, ConnType.tunneled⟩
    (TransportParse.parsed ⟨ConnType.tunneled, ConnType.tunneled⟩)
    ⟨ConnType.tunneled, ConnType.tunneled⟩ (Or.inl rfl)
